import Mathlib

/-!
Verification of the temporal-alignment and conversion-glue logic of the
jazayeri-lab-to-nwb repository, shallowly embedded in Lean 4.

Timestamps are modelled as rational numbers (the Python code uses floats,
but all the claims under study are exact affine-arithmetic facts, so ℚ is
the faithful idealization).  File systems are modelled as lists of names or
as lookup functions, and Python exceptions (ValueError, KeyError,
AssertionError) are modelled with `Except String`.
-/

namespace JazLab

/-! ### Affine timescale transforms

Embeds the per-stream transform JSON sidecar files and the alignment
arithmetic of `piccato/nwb_converter.py` (`temporally_align_data_interfaces`)
and `watters/nwb_converter.py`. -/

/-- The two scalar fields of a per-stream transform JSON file
(`transform["intercept"]`, `transform["coef"]`). -/
structure Transform where
  intercept : ℚ
  coef : ℚ
deriving DecidableEq

/-- The kind of probe stream, from `probe_name = name.split("Recording")[1]`:
V-probe streams (open_ephys) versus Neuropixel/SpikeGLX streams. -/
inductive ProbeKind where
  | vp
  | np
deriving DecidableEq

/-- Contents of the sync directory read by
`temporally_align_data_interfaces`: the `open_ephys/recording_start_time`
file and the two transform files. -/
structure SyncDir where
  recording_start_time : ℚ
  open_ephys_transform : Transform
  spikeglx_transform : Transform
deriving DecidableEq

/-- The recording-start offset used for a probe stream: the value read from
`sync_dir / "open_ephys" / "recording_start_time"` for V-probe streams, and
the literal `start = 0.0` for Neuropixel streams
(`piccato/nwb_converter.py` lines 123-131). -/
def probeStart (sync : SyncDir) : ProbeKind → ℚ
  | ProbeKind.vp => sync.recording_start_time
  | ProbeKind.np => 0

/-- The transform used for a probe stream: `open_ephys/transform` for
V-probe streams, `spikeglx/transform` for Neuropixel streams. -/
def probeTransform (sync : SyncDir) : ProbeKind → Transform
  | ProbeKind.vp => sync.open_ephys_transform
  | ProbeKind.np => sync.spikeglx_transform

/-- The vectorized alignment arithmetic
`aligned_timestamps = intercept + coef * (start + orig_timestamps)`
(`piccato/nwb_converter.py` line 141). -/
def alignTimestamps (t : Transform) (start : ℚ) (orig : List ℚ) : List ℚ :=
  orig.map (fun x => t.intercept + t.coef * (start + x))

/-- Alignment of one recording stream as performed by
`temporally_align_data_interfaces`: transform and start offset are chosen by
probe kind, then the affine map is applied. -/
def alignRecording (sync : SyncDir) (k : ProbeKind) (orig : List ℚ) : List ℚ :=
  alignTimestamps (probeTransform sync k) (probeStart sync k) orig

/-- The alignment as the claim words it: the start offset is the
`open_ephys/recording_start_time` value for V-probe streams "and for
SpikeGLX/Neuropixel streams as well".  This follows the claim text, not the
source, and is compared against `alignRecording`. -/
def claimedAlignRecording (sync : SyncDir) (k : ProbeKind) (orig : List ℚ) :
    List ℚ :=
  alignTimestamps (probeTransform sync k) sync.recording_start_time orig

/-- C1, counterexample: with a recording-start file holding 1, the identity
transform, and a Neuropixel stream with original timestamps [0], the code
produces [0] (it uses start = 0 for Neuropixel streams), while the claim's
formula (start = the open_ephys recording_start_time for Neuropixel streams
as well) predicts [1]. -/
theorem C1_counterexample :
    alignRecording ⟨1, ⟨0, 1⟩, ⟨0, 1⟩⟩ ProbeKind.np [0] ≠
      claimedAlignRecording ⟨1, ⟨0, 1⟩, ⟨0, 1⟩⟩ ProbeKind.np [0] := by
  simp [alignRecording, claimedAlignRecording, alignTimestamps, probeStart,
    probeTransform]

/-- C1 (amended): every aligned timestamp equals
`intercept + coef * (start_offset + original[i])` where `intercept` and
`coef` come from the stream's transform JSON file and the start offset is
the open_ephys recording_start_time value for V-probe streams and 0 for
SpikeGLX/Neuropixel streams. -/
theorem C1_aligned_formula (sync : SyncDir) (k : ProbeKind) (orig : List ℚ)
    (i : ℕ) (x : ℚ) (h : orig[i]? = some x) :
    (alignRecording sync k orig)[i]? =
      some ((probeTransform sync k).intercept +
        (probeTransform sync k).coef * (probeStart sync k + x)) ∧
    probeStart sync ProbeKind.vp = sync.recording_start_time ∧
    probeStart sync ProbeKind.np = 0 := by
  refine ⟨?_, rfl, rfl⟩
  simp [alignRecording, alignTimestamps, List.getElem?_map, h]

/-- Witness for C1_aligned_formula at a concrete input. -/
theorem C1_aligned_formula_witness :
    (alignRecording ⟨2, ⟨3, 5⟩, ⟨0, 1⟩⟩ ProbeKind.vp [7])[0]? =
      some (3 + 5 * (2 + 7)) ∧
    probeStart ⟨2, ⟨3, 5⟩, ⟨0, 1⟩⟩ ProbeKind.vp = 2 ∧
    probeStart ⟨2, ⟨3, 5⟩, ⟨0, 1⟩⟩ ProbeKind.np = 0 :=
  C1_aligned_formula ⟨2, ⟨3, 5⟩, ⟨0, 1⟩⟩ ProbeKind.vp [7] 0 7 rfl

/-- C10: the affine alignment transform with positive slope preserves
(strict) monotonicity of the timestamp array, and consecutive aligned
differences equal `coef` times the original differences, independently of
`intercept` and `start`. -/
theorem C10_affine_monotone (t : Transform) (start : ℚ) (orig : List ℚ)
    (hc : 0 < t.coef) :
    (orig.Chain' (· ≤ ·) → (alignTimestamps t start orig).Chain' (· ≤ ·)) ∧
    (orig.Chain' (· < ·) → (alignTimestamps t start orig).Chain' (· < ·)) ∧
    (∀ (i : ℕ) (a b : ℚ), orig[i]? = some a → orig[i + 1]? = some b →
      (alignTimestamps t start orig)[i]? =
          some (t.intercept + t.coef * (start + a)) ∧
        (alignTimestamps t start orig)[i + 1]? =
          some (t.intercept + t.coef * (start + b)) ∧
        (t.intercept + t.coef * (start + b)) -
            (t.intercept + t.coef * (start + a)) =
          t.coef * (b - a)) := by
  refine ⟨?_, ?_, ?_⟩
  · intro hmono
    rw [alignTimestamps, List.chain'_map]
    refine hmono.imp ?_
    intro a b hab
    have : start + a ≤ start + b := by linarith
    nlinarith
  · intro hmono
    rw [alignTimestamps, List.chain'_map]
    refine hmono.imp ?_
    intro a b hab
    have : start + a < start + b := by linarith
    nlinarith
  · intro i a b ha hb
    refine ⟨?_, ?_, by ring⟩
    · simp [alignTimestamps, List.getElem?_map, ha]
    · simp [alignTimestamps, List.getElem?_map, hb]

/-- Witness for C10_affine_monotone at a concrete input. -/
theorem C10_affine_monotone_witness :
    (([(0 : ℚ), 1, 3].Chain' (· ≤ ·) →
      (alignTimestamps ⟨4, 2⟩ 5 [0, 1, 3]).Chain' (· ≤ ·)) ∧
    ([(0 : ℚ), 1, 3].Chain' (· < ·) →
      (alignTimestamps ⟨4, 2⟩ 5 [0, 1, 3]).Chain' (· < ·)) ∧
    (∀ (i : ℕ) (a b : ℚ), [(0 : ℚ), 1, 3][i]? = some a →
      [(0 : ℚ), 1, 3][i + 1]? = some b →
      (alignTimestamps ⟨4, 2⟩ 5 [0, 1, 3])[i]? =
          some (4 + 2 * (5 + a)) ∧
        (alignTimestamps ⟨4, 2⟩ 5 [0, 1, 3])[i + 1]? =
          some (4 + 2 * (5 + b)) ∧
        (4 + 2 * (5 + b)) - (4 + 2 * (5 + a)) = 2 * (b - a))) :=
  C10_affine_monotone ⟨4, 2⟩ 5 [0, 1, 3] (by norm_num)

/-! ### Cross-stream zeroing

Embeds the final block of `temporally_align_data_interfaces`
(`piccato/nwb_converter.py` lines 168-180): collect the first timestamp of
every data interface, compute `zero_time = -1.0 * min(...)`, and call
`set_aligned_starting_time(zero_time)` on every non-sorting interface.
The external neuroconv `set_aligned_starting_time` is modelled from the
spec: "the minimum first-timestamp across all streams is computed and
subtracted (added as a negative offset) from every stream's start time",
i.e. it shifts every timestamp of the stream by the offset. -/

/-- One data interface as seen by the zeroing step: whether it is a sorting
interface (skipped when shifting) and its timestamp array.  For a sorting
interface, `ts` is the timestamp array of its registered recording, which is
what `get_timestamps` returns after `register_recording`. -/
structure DataStream where
  isSorting : Bool
  ts : List ℚ
deriving DecidableEq

/-- `get_timestamps()[0]` of a stream (the claims assume nonempty arrays;
the default is irrelevant under that hypothesis). -/
def firstTimestamp (s : DataStream) : ℚ := s.ts.headD 0

/-- Python's `min` on a nonempty list of floats. -/
def listMin : List ℚ → ℚ
  | [] => 0
  | [x] => x
  | x :: y :: xs => min x (listMin (y :: xs))

/-- `zero_time = -1.0 * min(aligned_start_times)`. -/
def zeroTime (streams : List DataStream) : ℚ :=
  -1 * listMin (streams.map firstTimestamp)

/-- `set_aligned_starting_time` applied to one interface: sorting
interfaces are skipped (their recording is shifted separately), all others
have every timestamp shifted by the offset. -/
def shiftStream (zt : ℚ) (s : DataStream) : DataStream :=
  if s.isSorting then s else { s with ts := s.ts.map (· + zt) }

/-- The whole zeroing step. -/
def zeroAlign (streams : List DataStream) : List DataStream :=
  streams.map (shiftStream (zeroTime streams))

theorem listMin_le {l : List ℚ} {x : ℚ} (hx : x ∈ l) : listMin l ≤ x := by
  induction l with
  | nil => cases hx
  | cons a t ih =>
    cases t with
    | nil =>
      rcases List.mem_cons.mp hx with h | h
      · simp [listMin, h]
      · cases h
    | cons b t2 =>
      rcases List.mem_cons.mp hx with h | h
      · rw [listMin, h]
        exact min_le_left _ _
      · exact le_trans (min_le_right _ _) (ih h)

theorem le_listMin {l : List ℚ} {c : ℚ} (hne : l ≠ [])
    (h : ∀ x ∈ l, c ≤ x) : c ≤ listMin l := by
  induction l with
  | nil => exact absurd rfl hne
  | cons a t ih =>
    cases t with
    | nil => simpa [listMin] using h a (by simp)
    | cons b t2 =>
      rw [listMin]
      refine le_min (h a (by simp)) (ih (by simp) ?_)
      intro x hx
      exact h x (List.mem_cons_of_mem a hx)

theorem firstTimestamp_shift {s : DataStream} (h : s.ts ≠ []) (zt : ℚ)
    (hs : s.isSorting = false) :
    firstTimestamp (shiftStream zt s) = firstTimestamp s + zt := by
  cases hts : s.ts with
  | nil => exact absurd hts h
  | cons a tl => simp [shiftStream, hs, firstTimestamp, hts]

/-- C3: assuming every stream's timestamp array is nonempty and the minimum
first-timestamp is attained at a non-sorting stream (true in the code, where
a sorting interface reports its registered recording's timestamps), the
zeroing step shifts every non-sorting stream by the same constant
`zero_time = -(min of first timestamps)`, and afterwards the minimum
first-timestamp across the shifted (non-sorting) streams is zero. -/
theorem C3_zeroing (streams : List DataStream)
    (hne : ∀ s ∈ streams, s.ts ≠ [])
    (hmin : ∃ s ∈ streams, s.isSorting = false ∧
      firstTimestamp s = listMin (streams.map firstTimestamp)) :
    (∀ (i : ℕ) (s : DataStream), streams[i]? = some s →
      s.isSorting = false →
      (zeroAlign streams)[i]? =
        some { s with ts := s.ts.map (· + zeroTime streams) }) ∧
    listMin (((zeroAlign streams).filter
      (fun s => !s.isSorting)).map firstTimestamp) = 0 := by
  constructor
  · intro i s hi hsort
    simp [zeroAlign, List.getElem?_map, hi, shiftStream, hsort]
  · obtain ⟨s0, hs0mem, hs0sort, hs0min⟩ := hmin
    have hzero : firstTimestamp (shiftStream (zeroTime streams) s0) = 0 := by
      rw [firstTimestamp_shift (hne s0 hs0mem) _ hs0sort, hs0min, zeroTime]
      ring
    have hmem0 : (0 : ℚ) ∈ ((zeroAlign streams).filter
        (fun s => !s.isSorting)).map firstTimestamp := by
      rw [← hzero]
      refine List.mem_map_of_mem firstTimestamp ?_
      rw [List.mem_filter]
      constructor
      · exact List.mem_map_of_mem (shiftStream (zeroTime streams)) hs0mem
      · simp [shiftStream, hs0sort]
    have hall : ∀ y ∈ ((zeroAlign streams).filter
        (fun s => !s.isSorting)).map firstTimestamp, (0 : ℚ) ≤ y := by
      intro y hy
      obtain ⟨s', hs'mem, hs'first⟩ := List.mem_map.mp hy
      have hs'filter := List.mem_filter.mp hs'mem
      obtain ⟨s, hsmem, hshift⟩ := List.mem_map.mp hs'filter.1
      have hssort : s.isSorting = false := by
        by_contra hcon
        have hcon' : s.isSorting = true := by
          cases hval : s.isSorting
          · exact absurd hval hcon
          · rfl
        have : s' = s := by rw [← hshift, shiftStream, hcon', if_pos rfl]
        rw [this] at hs'filter
        simp [hcon'] at hs'filter
      have hfirst : firstTimestamp s' = firstTimestamp s + zeroTime streams := by
        rw [← hshift]
        exact firstTimestamp_shift (hne s hsmem) _ hssort
      have hge : listMin (streams.map firstTimestamp) ≤ firstTimestamp s :=
        listMin_le (List.mem_map_of_mem firstTimestamp hsmem)
      rw [← hs'first, hfirst, zeroTime]
      linarith
    have h1 : listMin (((zeroAlign streams).filter
        (fun s => !s.isSorting)).map firstTimestamp) ≤ 0 := listMin_le hmem0
    have h2 : (0 : ℚ) ≤ listMin (((zeroAlign streams).filter
        (fun s => !s.isSorting)).map firstTimestamp) :=
      le_listMin (List.ne_nil_of_mem hmem0) hall
    linarith

/-- Witness for C3_zeroing at a concrete input: two non-sorting streams and
one sorting stream, minimum first timestamp 2. -/
theorem C3_zeroing_witness :
    ((∀ (i : ℕ) (s : DataStream),
      [⟨false, [2, 3]⟩, ⟨false, [5]⟩, ⟨true, [2, 3]⟩][i]? = some s →
      s.isSorting = false →
      (zeroAlign [⟨false, [2, 3]⟩, ⟨false, [5]⟩, ⟨true, [2, 3]⟩])[i]? =
        some { s with ts := s.ts.map (· + zeroTime [⟨false, [2, 3]⟩, ⟨false, [5]⟩, ⟨true, [2, 3]⟩]) }) ∧
    listMin (((zeroAlign [⟨false, [2, 3]⟩, ⟨false, [5]⟩, ⟨true, [2, 3]⟩]).filter
      (fun s => !s.isSorting)).map firstTimestamp) = 0) :=
  C3_zeroing [⟨false, [2, 3]⟩, ⟨false, [5]⟩, ⟨true, [2, 3]⟩]
    (by decide)
    ⟨⟨false, [2, 3]⟩, by decide, by decide, by decide⟩

/-! ### Trimming excess spikes

Embeds `_trim_excess_spikes` of `piccato/nwb_converter.py` (lines 21-67).
A recording is its per-segment sample counts; a sorting is its spike vector
sliced per segment (sample indices, last entry last).  The loop computes
`excess = last_spike_sample - num_samples + 1` per nonempty segment, raises
ValueError when `excess > max_excess_samples`, and otherwise records whether
any segment had positive excess; after the loop, the sorting is replaced by
`spikeinterface.curation.remove_excess_spikes` exactly when some segment had
positive excess.  The raise happens inside the loop, before any
reassignment, so on error the sorting is left unchanged. -/

/-- Whether one segment (sample count, spike samples) has a spike past the
end of the recording, i.e. positive excess. -/
def segHasPosExcess (p : ℕ × List ℕ) : Bool :=
  match p.2.getLast? with
  | none => false
  | some last => decide ((0 : ℤ) < (last : ℤ) - (p.1 : ℤ) + 1)

/-- The per-segment loop of `_trim_excess_spikes`: `acc` is the running
`has_exceeding_spikes` flag; segments with no spikes are skipped; a segment
with `excess > maxExcess` raises ValueError. -/
def segLoop : ℤ → Bool → List (ℕ × List ℕ) → Except String Bool
  | _, acc, [] => Except.ok acc
  | m, acc, p :: rest =>
    match p.2.getLast? with
    | none => segLoop m acc rest
    | some last =>
      if m < (last : ℤ) - (p.1 : ℤ) + 1 then
        Except.error ("Spikes detected at least " ++
          toString ((last : ℤ) - (p.1 : ℤ) + 1) ++
          " samples after the end of the recording.")
      else
        segLoop m (acc || decide ((0 : ℤ) < (last : ℤ) - (p.1 : ℤ) + 1)) rest

/-- Modelled from the spec: the external
`spikeinterface.curation.remove_excess_spikes` (not part of this
repository) drops the spikes that fall at or beyond the end of each
segment ("the excess spikes are dropped"). -/
def removeExcessSpikes (segs : List (ℕ × List ℕ)) : List (List ℕ) :=
  segs.map (fun p => p.2.filter (fun s => decide (s < p.1)))

/-- `_trim_excess_spikes` with `max_excess_samples = maxExcess`: run the
per-segment check, then replace the sorting only when some segment had
positive excess. -/
def trimExcessSpikes (maxExcess : ℤ) (numSamples : List ℕ)
    (spikes : List (List ℕ)) : Except String (List (List ℕ)) :=
  match segLoop maxExcess false (numSamples.zip spikes) with
  | Except.error e => Except.error e
  | Except.ok true => Except.ok (removeExcessSpikes (numSamples.zip spikes))
  | Except.ok false => Except.ok spikes

theorem segLoop_eq_ok (m : ℤ) (l : List (ℕ × List ℕ))
    (h : ∀ p ∈ l, ∀ last, p.2.getLast? = some last →
      (last : ℤ) - (p.1 : ℤ) + 1 ≤ m) :
    ∀ acc, segLoop m acc l = Except.ok (acc || l.any segHasPosExcess) := by
  induction l with
  | nil => intro acc; simp [segLoop]
  | cons q rest ih =>
    intro acc
    have hrest : ∀ p ∈ rest, ∀ last, p.2.getLast? = some last →
        (last : ℤ) - (p.1 : ℤ) + 1 ≤ m :=
      fun p hp => h p (List.mem_cons_of_mem q hp)
    cases hlast : q.2.getLast? with
    | none =>
      simp only [segLoop, hlast]
      rw [ih hrest acc]
      simp [segHasPosExcess, hlast]
    | some last =>
      have hle := h q (List.mem_cons_self q rest) last hlast
      simp only [segLoop, hlast]
      rw [if_neg (by omega), ih hrest]
      simp [segHasPosExcess, hlast, Bool.or_assoc]

theorem segLoop_error (m : ℤ) (l : List (ℕ × List ℕ))
    (h : ∃ p ∈ l, ∃ last, p.2.getLast? = some last ∧
      m < (last : ℤ) - (p.1 : ℤ) + 1) :
    ∀ acc, ∃ e, segLoop m acc l = Except.error e := by
  induction l with
  | nil =>
    obtain ⟨p, hp, _⟩ := h
    cases hp
  | cons q rest ih =>
    intro acc
    cases hlast : q.2.getLast? with
    | none =>
      have h' : ∃ p ∈ rest, ∃ last, p.2.getLast? = some last ∧
          m < (last : ℤ) - (p.1 : ℤ) + 1 := by
        obtain ⟨p, hp, last, hl, hgt⟩ := h
        rcases List.mem_cons.mp hp with rfl | hp'
        · rw [hlast] at hl
          cases hl
        · exact ⟨p, hp', last, hl, hgt⟩
      obtain ⟨e, he⟩ := ih h' acc
      refine ⟨e, ?_⟩
      simp only [segLoop, hlast]
      exact he
    | some last =>
      by_cases hgt : m < (last : ℤ) - (q.1 : ℤ) + 1
      · refine ⟨"Spikes detected at least " ++
          toString ((last : ℤ) - (q.1 : ℤ) + 1) ++
          " samples after the end of the recording.", ?_⟩
        simp only [segLoop, hlast]
        rw [if_pos hgt]
      · have h' : ∃ p ∈ rest, ∃ last2, p.2.getLast? = some last2 ∧
            m < (last2 : ℤ) - (p.1 : ℤ) + 1 := by
          obtain ⟨p, hp, last2, hl, hgt2⟩ := h
          rcases List.mem_cons.mp hp with rfl | hp'
          · rw [hlast] at hl
            injection hl with heq
            subst heq
            exact absurd hgt2 hgt
          · exact ⟨p, hp', last2, hl, hgt2⟩
        obtain ⟨e, he⟩ := ih h' _
        refine ⟨e, ?_⟩
        simp only [segLoop, hlast]
        rw [if_neg hgt]
        exact he

/-- C2: with slack 300, per segment excess = last spike sample - sample
count + 1: some segment with excess > 300 makes `_trim_excess_spikes` raise
ValueError with the sorting unchanged; positive excess at most 300 in every
segment makes it drop the excess spikes via `remove_excess_spikes`; excess
at most 0 everywhere leaves the sorting unchanged. -/
theorem C2_trim_excess_spikes (numSamples : List ℕ) (spikes : List (List ℕ)) :
    ((∃ p ∈ numSamples.zip spikes, ∃ last, p.2.getLast? = some last ∧
        (300 : ℤ) < (last : ℤ) - (p.1 : ℤ) + 1) →
      ∃ e, trimExcessSpikes 300 numSamples spikes = Except.error e) ∧
    ((numSamples.zip spikes ≠ [] ∧ ∀ p ∈ numSamples.zip spikes, ∃ last,
        p.2.getLast? = some last ∧ (0 : ℤ) < (last : ℤ) - (p.1 : ℤ) + 1 ∧
        (last : ℤ) - (p.1 : ℤ) + 1 ≤ 300) →
      trimExcessSpikes 300 numSamples spikes =
        Except.ok (removeExcessSpikes (numSamples.zip spikes))) ∧
    ((∀ p ∈ numSamples.zip spikes, ∀ last, p.2.getLast? = some last →
        (last : ℤ) - (p.1 : ℤ) + 1 ≤ 0) →
      trimExcessSpikes 300 numSamples spikes = Except.ok spikes) := by
  refine ⟨?_, ?_, ?_⟩
  · intro h
    obtain ⟨e, he⟩ := segLoop_error 300 (numSamples.zip spikes) h false
    exact ⟨e, by simp only [trimExcessSpikes, he]⟩
  · intro h
    obtain ⟨hne, hall⟩ := h
    have hle : ∀ p ∈ numSamples.zip spikes, ∀ last,
        p.2.getLast? = some last → (last : ℤ) - (p.1 : ℤ) + 1 ≤ 300 := by
      intro p hp last hl
      obtain ⟨last2, hl2, _, hle2⟩ := hall p hp
      rw [hl] at hl2
      injection hl2 with heq
      omega
    have hok := segLoop_eq_ok 300 (numSamples.zip spikes) hle false
    have hany : (numSamples.zip spikes).any segHasPosExcess = true := by
      obtain ⟨q, rest, hql⟩ := List.exists_cons_of_ne_nil hne
      obtain ⟨last, hl, hpos, _⟩ := hall q (by rw [hql]; exact List.mem_cons_self q rest)
      refine List.any_eq_true.mpr ⟨q, by rw [hql]; exact List.mem_cons_self q rest, ?_⟩
      simp only [segHasPosExcess, hl]
      exact decide_eq_true hpos
    rw [hany, Bool.false_or] at hok
    simp only [trimExcessSpikes]
    rw [hok]
  · intro h
    have hle : ∀ p ∈ numSamples.zip spikes, ∀ last,
        p.2.getLast? = some last → (last : ℤ) - (p.1 : ℤ) + 1 ≤ 300 := by
      intro p hp last hl
      have := h p hp last hl
      omega
    have hok := segLoop_eq_ok 300 (numSamples.zip spikes) hle false
    have hany : (numSamples.zip spikes).any segHasPosExcess = false := by
      rw [List.any_eq_false]
      intro p hp
      cases hl : p.2.getLast? with
      | none => simp [segHasPosExcess, hl]
      | some last =>
        have := h p hp last hl
        simp only [segHasPosExcess, hl]
        simpa using by omega
    rw [hany, Bool.false_or] at hok
    simp only [trimExcessSpikes]
    rw [hok]

/-- Witness for C2_trim_excess_spikes: a one-segment recording of 10
samples, with a sorting whose last spike is at sample 400 (error), 10
(dropped), and 9 (unchanged) respectively. -/
theorem C2_trim_excess_spikes_witness :
    (∃ e, trimExcessSpikes 300 [10] [[400]] = Except.error e) ∧
    trimExcessSpikes 300 [10] [[5, 10]] =
      Except.ok (removeExcessSpikes ([10].zip [[5, 10]])) ∧
    trimExcessSpikes 300 [10] [[5, 9]] = Except.ok [[5, 9]] :=
  ⟨(C2_trim_excess_spikes [10] [[400]]).1
      ⟨(10, [400]), by decide, 400, rfl, by decide⟩,
    (C2_trim_excess_spikes [10] [[5, 10]]).2.1
      ⟨by decide, by
        intro p hp
        have hp' : p ∈ [((10 : ℕ), [(5 : ℕ), 10])] := hp
        rw [List.mem_singleton] at hp'
        subst hp'
        exact ⟨10, rfl, by decide, by decide⟩⟩,
    (C2_trim_excess_spikes [10] [[5, 9]]).2.2 (by
      intro p hp last hl
      have hp' : p ∈ [((10 : ℕ), [(5 : ℕ), 9])] := hp
      rw [List.mem_singleton] at hp'
      subst hp'
      have h9 : (some 9 : Option ℕ) = some last := by rw [← hl]; rfl
      injection h9 with h9
      subst h9
      decide)⟩

/-! ### Single-file discovery

Embeds `_get_single_file` of `watters/main_convert_session.py` (lines
54-64) and `neupane/main_convert_session.py` (identical).  The Python
function globs `*{suffix}` in a directory (external stdlib `glob`); here
`files` is the resulting match list, and `suffix`/`directory` are carried
only for the error messages. -/

/-- `_get_single_file`: error on zero matches, error on more than one
match, otherwise the unique match `files[0]`. -/
def getSingleFile (files : List String) (suffix directory : String) :
    Except String String :=
  if files.length = 0 then
    Except.error ("No " ++ suffix ++ " files found in " ++ directory)
  else if 1 < files.length then
    Except.error ("Multiple " ++ suffix ++ " files found in " ++ directory)
  else
    Except.ok (files.headD "")

/-- C4: `_get_single_file` returns the unique matching file when exactly one
file matches, and raises a ValueError when zero or multiple files match. -/
theorem C4_get_single_file (files : List String) (suffix directory : String) :
    (∀ f, files = [f] →
      getSingleFile files suffix directory = Except.ok f) ∧
    (files = [] →
      getSingleFile files suffix directory =
        Except.error ("No " ++ suffix ++ " files found in " ++ directory)) ∧
    (1 < files.length →
      getSingleFile files suffix directory =
        Except.error ("Multiple " ++ suffix ++ " files found in " ++
          directory)) := by
  refine ⟨?_, ?_, ?_⟩
  · intro f hf
    subst hf
    simp [getSingleFile]
  · intro hf
    subst hf
    simp [getSingleFile]
  · intro hlen
    rw [getSingleFile, if_neg (by omega), if_pos hlen]

/-- Witness for C4_get_single_file at concrete inputs: one match, zero
matches, two matches. -/
theorem C4_get_single_file_witness :
    getSingleFile ["a.dat"] ".dat" "dir" = Except.ok "a.dat" ∧
    getSingleFile [] ".dat" "dir" =
      Except.error ("No " ++ ".dat" ++ " files found in " ++ "dir") ∧
    getSingleFile ["a.dat", "b.dat"] ".dat" "dir" =
      Except.error ("Multiple " ++ ".dat" ++ " files found in " ++ "dir") :=
  ⟨(C4_get_single_file ["a.dat"] ".dat" "dir").1 "a.dat" rfl,
    (C4_get_single_file [] ".dat" "dir").2.1 rfl,
    (C4_get_single_file ["a.dat", "b.dat"] ".dat" "dir").2.2 (by decide)⟩

/-! ### Output NWB file paths

Embeds the output-path construction of `session_to_nwb` in
`watters/main_convert_session.py` (lines 260-275) and the two
`run_conversion` calls (lines 344-361): one processed (behavior+ecephys)
file and one raw (ecephys) file are written per session.  The external
`run_conversion` writes one NWB file at the `nwbfile_path` it is given. -/

/-- `session_id = f"{session}-stub" if stub_test else f"{session}"`. -/
def sessionIdStr (session : String) (stub_test : Bool) : String :=
  if stub_test then session ++ "-stub" else session

/-- `raw_nwb_path = session_paths.output / f"sub-{subject}_ses-{session_id}_ecephys.nwb"`. -/
def rawNwbPath (outputDir subject session : String) (stub_test : Bool) :
    String :=
  outputDir ++ "/sub-" ++ subject ++ "_ses-" ++
    sessionIdStr session stub_test ++ "_ecephys.nwb"

/-- `processed_nwb_path = session_paths.output / f"sub-{subject}_ses-{session_id}_behavior+ecephys.nwb"`. -/
def processedNwbPath (outputDir subject session : String) (stub_test : Bool) :
    String :=
  outputDir ++ "/sub-" ++ subject ++ "_ses-" ++
    sessionIdStr session stub_test ++ "_behavior+ecephys.nwb"

/-- The NWB files written by one invocation of `session_to_nwb`, in write
order: first the processed conversion, then the raw conversion. -/
def sessionToNwbOutputs (outputDir subject session : String)
    (stub_test : Bool) : List String :=
  [processedNwbPath outputDir subject session stub_test,
    rawNwbPath outputDir subject session stub_test]

/-- C5: one invocation of `session_to_nwb` writes exactly the two NWB files
`output / sub-SUBJECT_ses-SESSIONID_behavior+ecephys.nwb` and
`output / sub-SUBJECT_ses-SESSIONID_ecephys.nwb`, where the session id is
the session string with "-stub" appended exactly when stub_test is true,
and the two paths are distinct. -/
theorem C5_session_outputs (outputDir subject session : String)
    (stub_test : Bool) :
    sessionToNwbOutputs outputDir subject session stub_test =
      [outputDir ++ "/sub-" ++ subject ++ "_ses-" ++
          (session ++ (if stub_test then "-stub" else "")) ++
          "_behavior+ecephys.nwb",
        outputDir ++ "/sub-" ++ subject ++ "_ses-" ++
          (session ++ (if stub_test then "-stub" else "")) ++
          "_ecephys.nwb"] ∧
    (sessionToNwbOutputs outputDir subject session stub_test).length = 2 ∧
    processedNwbPath outputDir subject session stub_test ≠
      rawNwbPath outputDir subject session stub_test := by
  refine ⟨?_, rfl, ?_⟩
  · cases stub_test with
    | false =>
      simp [sessionToNwbOutputs, processedNwbPath, rawNwbPath, sessionIdStr]
    | true =>
      simp [sessionToNwbOutputs, processedNwbPath, rawNwbPath, sessionIdStr]
  · intro heq
    have h1 := congrArg String.length heq
    rw [processedNwbPath, rawNwbPath] at h1
    simp only [String.length_append] at h1
    have h2 : ("_behavior+ecephys.nwb" : String).length = 21 := rfl
    have h3 : ("_ecephys.nwb" : String).length = 12 := rfl
    omega

/-! ### Behavioral timeseries interface constructors

Embeds `EyePositionInterface.__init__` and `PupilSizeInterface.__init__` of
`watters/timeseries_interface.py`.  The file system is a lookup function
from path to the parsed JSON contents (a times/values record); a missing
file is `none`.  Python's AssertionError on a missing file is an
`Except.error` carrying the assertion message. -/

/-- Parsed contents of one behavioral JSON file: `data["times"]` and
`data["values"]`. -/
structure TimesValues where
  times : List ℚ
  values : List ℚ

/-- `np.allclose` default relative tolerance 1e-5; the code passes
`atol=0.0005`. -/
def ALLCLOSE_RTOL : ℚ := 1 / 100000

def ALLCLOSE_ATOL : ℚ := 1 / 2000

/-- `np.allclose(a, b, atol=0.0005)` on equal-length arrays:
`|a - b| <= atol + rtol * |b|` elementwise. -/
def allclose (a b : List ℚ) : Bool :=
  (a.zip b).all
    (fun p => decide (|p.1 - p.2| ≤ ALLCLOSE_ATOL + ALLCLOSE_RTOL * |p.2|))

/-- The state built by a successful `EyePositionInterface.__init__`. -/
structure EyePositionData where
  timestamps : List ℚ
  eye_pos : List (ℚ × ℚ)

/-- `EyePositionInterface.__init__`: assert both eye files exist (error
names the missing file), load them, rescale values by `0.5 + v / 20`,
check equal lengths and `np.allclose` of the two time arrays, then record
timestamps and the stacked eye position. -/
def eyePositionInit (folder_path : String)
    (fs : String → Option TimesValues) : Except String EyePositionData :=
  match fs (folder_path ++ "/eye_h_calibrated.json") with
  | none =>
    Except.error ("Could not find " ++ (folder_path ++ "/eye_h_calibrated.json"))
  | some eye_h_data =>
    match fs (folder_path ++ "/eye_v_calibrated.json") with
    | none =>
      Except.error ("Could not find " ++ (folder_path ++ "/eye_v_calibrated.json"))
    | some eye_v_data =>
      let eye_h_times := eye_h_data.times
      let eye_h_values := eye_h_data.values.map (fun v => 1 / 2 + v / 20)
      let eye_v_times := eye_v_data.times
      let eye_v_values := eye_v_data.values.map (fun v => 1 / 2 + v / 20)
      if eye_h_times.length ≠ eye_v_times.length then
        Except.error "len(eye_h_times) differs from len(eye_v_times)"
      else if !(allclose eye_h_times eye_v_times) then
        Except.error "eye_h_times and eye_v_times are not sufficiently similar"
      else
        Except.ok { timestamps := eye_h_times, eye_pos := eye_h_values.zip eye_v_values }

/-- The state built by a successful `PupilSizeInterface.__init__`. -/
structure PupilSizeData where
  timestamps : List ℚ
  pupil_size : List ℚ

/-- `PupilSizeInterface.__init__`: assert `pupil_size_r.json` exists (error
names the missing file), then record its times and values. -/
def pupilSizeInit (folder_path : String)
    (fs : String → Option TimesValues) : Except String PupilSizeData :=
  match fs (folder_path ++ "/pupil_size_r.json") with
  | none =>
    Except.error ("Could not find " ++ (folder_path ++ "/pupil_size_r.json"))
  | some pupil_size_data =>
    Except.ok { timestamps := pupil_size_data.times, pupil_size := pupil_size_data.values }

/-- C6: when an expected JSON data file is missing, the constructors fail
with an assertion error naming the missing file, for every possible
contents of the rest of the file system (so before any data is read). -/
theorem C6_missing_file_assertions (folder_path : String)
    (fs : String → Option TimesValues) :
    (fs (folder_path ++ "/eye_h_calibrated.json") = none →
      eyePositionInit folder_path fs =
        Except.error
          ("Could not find " ++ (folder_path ++ "/eye_h_calibrated.json"))) ∧
    (∀ d, fs (folder_path ++ "/eye_h_calibrated.json") = some d →
      fs (folder_path ++ "/eye_v_calibrated.json") = none →
      eyePositionInit folder_path fs =
        Except.error
          ("Could not find " ++ (folder_path ++ "/eye_v_calibrated.json"))) ∧
    (fs (folder_path ++ "/pupil_size_r.json") = none →
      pupilSizeInit folder_path fs =
        Except.error
          ("Could not find " ++ (folder_path ++ "/pupil_size_r.json"))) := by
  refine ⟨?_, ?_, ?_⟩
  · intro h
    simp only [eyePositionInit, h]
  · intro d hh hv
    simp only [eyePositionInit, hh, hv]
  · intro h
    simp only [pupilSizeInit, h]

/-- Witness for C6_missing_file_assertions: an empty file system for the
eye-h and pupil cases, and a file system holding only the eye-h file for
the eye-v case. -/
theorem C6_missing_file_assertions_witness :
    eyePositionInit "d" (fun _ => none) =
      Except.error ("Could not find " ++ ("d" ++ "/eye_h_calibrated.json")) ∧
    eyePositionInit "d"
        (fun p => if p = "d" ++ "/eye_h_calibrated.json" then some ⟨[], []⟩ else none) =
      Except.error ("Could not find " ++ ("d" ++ "/eye_v_calibrated.json")) ∧
    pupilSizeInit "d" (fun _ => none) =
      Except.error ("Could not find " ++ ("d" ++ "/pupil_size_r.json")) :=
  ⟨(C6_missing_file_assertions "d" (fun _ => none)).1 rfl,
    (C6_missing_file_assertions "d"
        (fun p => if p = "d" ++ "/eye_h_calibrated.json" then some ⟨[], []⟩ else none)).2.1
      ⟨[], []⟩ (by simp) (by simp),
    (C6_missing_file_assertions "d" (fun _ => none)).2.2 rfl⟩

/-! ### Session paths

Embeds `watters/get_session_paths.py`: the `SessionPaths` namedtuple, the
`SUBJECT_NAME_TO_ID` table, the openmind and globus path builders, and the
repo dispatch of `get_session_paths`.  Python's KeyError on an unknown
subject and ValueError on an unknown repo are `Except.error`s. -/

def SUBJECT_NAME_TO_ID : List (String × String) :=
  [("Perle", "monkey0"), ("Elgar", "monkey1")]

/-- The `SessionPaths` namedtuple with its six fields. -/
structure SessionPaths where
  output : String
  raw_data : String
  data_open_source : String
  task_behavior_data : String
  sync_pulses : String
  spike_sorting_raw : String
deriving DecidableEq

/-- `_get_session_paths_openmind`. -/
def getSessionPathsOpenmind (subject session : String) (stub_test : Bool) :
    Except String SessionPaths :=
  match SUBJECT_NAME_TO_ID.lookup subject with
  | none => Except.error ("KeyError: " ++ subject)
  | some subject_id =>
    Except.ok
      { output := (if stub_test then "/om/user/nwatters/nwb_data_multi_prediction/" ++ subject ++ "/" ++ session ++ "/stub" else "/om/user/nwatters/nwb_data_multi_prediction/" ++ subject ++ "/" ++ session),
        raw_data := "/om4/group/jazlab/nwatters/multi_prediction/phys_data/" ++ subject ++ "/" ++ session ++ "/raw_data",
        data_open_source := "/om4/group/jazlab/nwatters/multi_prediction/datasets/data_open_source/Subjects/" ++ subject_id ++ "/" ++ session ++ "/001",
        task_behavior_data := "/om4/group/jazlab/nwatters/multi_prediction/datasets/data_nwb_trials/" ++ subject ++ "/" ++ session,
        sync_pulses := "/om4/group/jazlab/nwatters/multi_prediction/data_processed/" ++ subject ++ "/" ++ session ++ "/sync_pulses",
        spike_sorting_raw := "/om4/group/jazlab/nwatters/multi_prediction/phys_data/" ++ subject ++ "/" ++ session ++ "/spike_sorting" }

/-- `_get_session_paths_globus` (note `base_data_dir` ends in a slash, so
the code produces double slashes, kept faithfully). -/
def getSessionPathsGlobus (subject session : String) (stub_test : Bool) :
    Except String SessionPaths :=
  match SUBJECT_NAME_TO_ID.lookup subject with
  | none => Except.error ("KeyError: " ++ subject)
  | some subject_id =>
    let base_data_dir := "/shared/catalystneuro/JazLab/" ++ subject_id ++ "/" ++ session ++ "/"
    Except.ok
      { output := (if stub_test then "~/conversion_nwb/jazayeri-lab-to-nwb/" ++ subject ++ "/" ++ session ++ "/stub" else "~/conversion_nwb/jazayeri-lab-to-nwb/" ++ subject ++ "/" ++ session),
        raw_data := base_data_dir ++ "/raw_data",
        data_open_source := base_data_dir ++ "/data_open_source",
        task_behavior_data := base_data_dir ++ "/processed_task_data",
        sync_pulses := base_data_dir ++ "/sync_pulses",
        spike_sorting_raw := base_data_dir ++ "/spike_sorting" }

/-- `get_session_paths`: dispatch on the repo string, ValueError on any
other repo. -/
def getSessionPaths (subject session : String) (stub_test : Bool)
    (repo : String) : Except String SessionPaths :=
  if repo = "openmind" then getSessionPathsOpenmind subject session stub_test
  else if repo = "globus" then getSessionPathsGlobus subject session stub_test
  else Except.error ("Invalid repo " ++ repo)

/-- C7, counterexample: for the subject "Milo" (not in SUBJECT_NAME_TO_ID)
and repo "openmind", get_session_paths raises a KeyError instead of
returning a SessionPaths record, so the claim's quantification over every
subject fails. -/
theorem C7_counterexample :
    getSessionPaths "Milo" "2022-01-01" false "openmind" =
      Except.error ("KeyError: " ++ "Milo") := rfl

/-- C7 (amended): for the subjects present in SUBJECT_NAME_TO_ID ("Perle"
and "Elgar") and repo "openmind" or "globus", get_session_paths returns a
SessionPaths record (whose field set is exactly output, raw_data,
data_open_source, task_behavior_data, sync_pulses, spike_sorting_raw, each
a path built from subject, session, stub_test and repo alone); for every
other repo value it raises a ValueError, and for other subjects a
KeyError. -/
theorem C7_get_session_paths (subject session : String) (stub_test : Bool)
    (repo : String) :
    ((subject = "Perle" ∨ subject = "Elgar") →
      (repo = "openmind" ∨ repo = "globus") →
      ∃ p : SessionPaths,
        getSessionPaths subject session stub_test repo = Except.ok p) ∧
    (repo ≠ "openmind" → repo ≠ "globus" →
      getSessionPaths subject session stub_test repo =
        Except.error ("Invalid repo " ++ repo)) ∧
    (subject ≠ "Perle" → subject ≠ "Elgar" →
      (repo = "openmind" ∨ repo = "globus") →
      getSessionPaths subject session stub_test repo =
        Except.error ("KeyError: " ++ subject)) := by
  refine ⟨?_, ?_, ?_⟩
  · intro hs hr
    rcases hs with rfl | rfl <;> rcases hr with rfl | rfl <;> exact ⟨_, rfl⟩
  · intro h1 h2
    rw [getSessionPaths, if_neg h1, if_neg h2]
  · intro h1 h2 hr
    have hb1 : (subject == "Perle") = false := beq_eq_false_iff_ne.mpr h1
    have hb2 : (subject == "Elgar") = false := beq_eq_false_iff_ne.mpr h2
    have hlookup : SUBJECT_NAME_TO_ID.lookup subject = none := by
      simp [SUBJECT_NAME_TO_ID, List.lookup, hb1, hb2]
    rcases hr with rfl | rfl
    · rw [getSessionPaths, if_pos rfl]
      simp only [getSessionPathsOpenmind, hlookup]
    · rw [getSessionPaths, if_neg (by decide), if_pos rfl]
      simp only [getSessionPathsGlobus, hlookup]

/-- Witness for C7_get_session_paths at concrete inputs: a valid subject
and repo, an invalid repo, and a subject outside SUBJECT_NAME_TO_ID. -/
theorem C7_get_session_paths_witness :
    (∃ p : SessionPaths,
      getSessionPaths "Perle" "2022-06-01" false "openmind" = Except.ok p) ∧
    getSessionPaths "Perle" "2022-06-01" false "dandi" =
      Except.error ("Invalid repo " ++ "dandi") ∧
    getSessionPaths "Nico" "2022-06-01" false "globus" =
      Except.error ("KeyError: " ++ "Nico") :=
  ⟨(C7_get_session_paths "Perle" "2022-06-01" false "openmind").1
      (Or.inl rfl) (Or.inl rfl),
    (C7_get_session_paths "Perle" "2022-06-01" false "dandi").2.1
      (by decide) (by decide),
    (C7_get_session_paths "Nico" "2022-06-01" false "globus").2.2
      (by decide) (by decide) (Or.inr rfl)⟩

/-! ### Unit name assignment

Embeds the loop of `NWBConverter.__init__` (`watters/nwb_converter.py`
lines 52-60, `piccato/nwb_converter.py` lines 99-107): for each sorting
interface in order, the `unit_name` property is set to
`(unit_ids + unit_name_start).astype(str)` and `unit_name_start` advances
by `np.max(unit_ids) + 1`.  Unit ids are the claim's distinct non-negative
integers, so ℕ. -/

/-- `np.max` over a unit id array (the arrays are nonempty under the
claim's hypotheses; numpy raises on an empty array). -/
def foldrMax (l : List ℕ) : ℕ := l.foldr max 0

/-- The numeric unit names assigned per sorting interface: each interface's
ids shifted by the running start, which then advances by max id + 1. -/
def assignUnitNames : ℕ → List (List ℕ) → List (List ℕ)
  | _, [] => []
  | start, ids :: rest =>
    (ids.map (· + start)) :: assignUnitNames (start + foldrMax ids + 1) rest

/-- Modelled from numpy (external to this repository): `astype(str)`
renders each numeric name as its decimal string. -/
def decRepr (n : ℕ) : String :=
  if n = 0 then "0"
  else String.mk (((Nat.digits 10 n).map Nat.digitChar).reverse)

/-- The `unit_name` string values assigned across all sorting interfaces of
a converter, in interface order. -/
def unitNameStrings (interfaces : List (List ℕ)) : List (List String) :=
  (assignUnitNames 0 interfaces).map (fun l => l.map decRepr)

theorem le_foldrMax {l : List ℕ} {x : ℕ} (hx : x ∈ l) : x ≤ foldrMax l := by
  induction l with
  | nil => cases hx
  | cons a t ih =>
    rcases List.mem_cons.mp hx with rfl | hmem
    · exact le_max_left _ _
    · exact le_trans (ih hmem) (le_max_right _ _)

theorem assign_mem_ge {L : List (List ℕ)} :
    ∀ {start x : ℕ}, x ∈ (assignUnitNames start L).flatten → start ≤ x := by
  induction L with
  | nil =>
    intro start x hx
    simp [assignUnitNames] at hx
  | cons ids rest ih =>
    intro start x hx
    simp only [assignUnitNames, List.flatten_cons, List.mem_append] at hx
    rcases hx with hmem | hmem
    · obtain ⟨i, _, rfl⟩ := List.mem_map.mp hmem
      omega
    · have := ih hmem
      omega

theorem assign_flatten_nodup {L : List (List ℕ)}
    (h : ∀ ids ∈ L, ids.Nodup) :
    ∀ start, ((assignUnitNames start L).flatten).Nodup := by
  induction L with
  | nil => intro start; simp [assignUnitNames]
  | cons ids rest ih =>
    intro start
    simp only [assignUnitNames, List.flatten_cons]
    rw [List.nodup_append]
    refine ⟨?_, ih (fun i hi => h i (List.mem_cons_of_mem ids hi)) _, ?_⟩
    · exact (h ids (List.mem_cons_self ids rest)).map
        (fun a b hab => by omega)
    · intro a ha hb
      obtain ⟨i, hi, rfl⟩ := List.mem_map.mp ha
      have h1 : i ≤ foldrMax ids := le_foldrMax hi
      have h2 := assign_mem_ge hb
      omega

theorem digitChar_inj_fin :
    ∀ a b : Fin 10, Nat.digitChar a.val = Nat.digitChar b.val → a = b := by
  decide

theorem digitChar_inj_lt {a b : ℕ} (ha : a < 10) (hb : b < 10)
    (h : Nat.digitChar a = Nat.digitChar b) : a = b :=
  congrArg Fin.val (digitChar_inj_fin ⟨a, ha⟩ ⟨b, hb⟩ h)

theorem map_digitChar_inj : ∀ {l1 l2 : List ℕ}, (∀ x ∈ l1, x < 10) →
    (∀ x ∈ l2, x < 10) → l1.map Nat.digitChar = l2.map Nat.digitChar →
    l1 = l2 := by
  intro l1
  induction l1 with
  | nil =>
    intro l2 _ _ h
    cases l2 with
    | nil => rfl
    | cons b t2 => simp at h
  | cons a t ih =>
    intro l2 h1 h2 h
    cases l2 with
    | nil => simp at h
    | cons b t2 =>
      simp only [List.map_cons, List.cons.injEq] at h
      obtain ⟨hab, ht⟩ := h
      have ha := h1 a (List.mem_cons_self a t)
      have hb := h2 b (List.mem_cons_self b t2)
      have heq : a = b := digitChar_inj_lt ha hb hab
      subst heq
      rw [ih (fun x hx => h1 x (List.mem_cons_of_mem a hx))
        (fun x hx => h2 x (List.mem_cons_of_mem a hx)) ht]

theorem decRepr_ne_zero {b : ℕ} (hb : b ≠ 0) : decRepr b ≠ decRepr 0 := by
  intro h
  rw [decRepr, if_neg hb, decRepr, if_pos rfl] at h
  have hdata : ((Nat.digits 10 b).map Nat.digitChar).reverse = ['0'] :=
    congrArg String.data h
  have h2 : (Nat.digits 10 b).map Nat.digitChar = ['0'] := by
    have := congrArg List.reverse hdata
    simpa using this
  have hd : Nat.digits 10 b = [0] := by
    cases hdig : Nat.digits 10 b with
    | nil => rw [hdig] at h2; simp at h2
    | cons d t =>
      rw [hdig] at h2
      cases t with
      | nil =>
        simp only [List.map_cons, List.map_nil, List.cons.injEq] at h2
        have hd10 : d < 10 := Nat.digits_lt_base (by norm_num)
          (hdig ▸ List.mem_cons_self d [])
        have : d = 0 := digitChar_inj_lt hd10 (by norm_num) h2.1
        rw [this]
      | cons d2 t2 => simp at h2
  have := Nat.ofDigits_digits 10 b
  rw [hd] at this
  simp [Nat.ofDigits] at this
  exact hb this.symm

theorem decRepr_injective : Function.Injective decRepr := by
  intro a b h
  by_cases ha : a = 0
  · by_cases hb : b = 0
    · rw [ha, hb]
    · exact absurd h.symm (ha ▸ decRepr_ne_zero hb)
  · by_cases hb : b = 0
    · exact absurd h (hb ▸ decRepr_ne_zero ha)
    · rw [decRepr, if_neg ha, decRepr, if_neg hb] at h
      have hdata : ((Nat.digits 10 a).map Nat.digitChar).reverse =
          ((Nat.digits 10 b).map Nat.digitChar).reverse :=
        congrArg String.data h
      have hmap := List.reverse_injective hdata
      have hdig := map_digitChar_inj
        (fun x hx => Nat.digits_lt_base (by norm_num) hx)
        (fun x hx => Nat.digits_lt_base (by norm_num) hx) hmap
      exact Nat.digits_inj_iff.mp hdig

/-- C8: assuming each sorting interface has a nonempty, duplicate-free list
of non-negative integer unit ids, the `unit_name` string values assigned by
`NWBConverter.__init__` are pairwise distinct across all sorting
interfaces, because each interface's names are offset by the running sum of
(max unit id + 1) of the interfaces before it. -/
theorem C8_unit_names_distinct (interfaces : List (List ℕ))
    (h : ∀ ids ∈ interfaces, ids ≠ [] ∧ ids.Nodup) :
    ((unitNameStrings interfaces).flatten).Nodup := by
  have hnum : ((assignUnitNames 0 interfaces).flatten).Nodup :=
    assign_flatten_nodup (fun ids hi => (h ids hi).2) 0
  rw [unitNameStrings, ← List.map_flatten]
  exact hnum.map decRepr_injective

/-- Witness for C8_unit_names_distinct: two sorting interfaces with unit
ids [0, 1] and [0, 2]; the assigned names are "0", "1", "2", "4". -/
theorem C8_unit_names_distinct_witness :
    ((unitNameStrings [[0, 1], [0, 2]]).flatten).Nodup :=
  C8_unit_names_distinct [[0, 1], [0, 2]] (by decide)

/-! ### Trials dataframe alignment

Embeds `TrialsInterface` of `watters/trials_interface.py`: the trials
dataframe has the 21 columns of `KEY_MAP` (under their mapped names), one
entry per trial, and `set_aligned_starting_time` adds the offset to the
eleven time-valued columns with `df.column += offset` (elementwise) and
touches nothing else. -/

/-- The trials dataframe, one list entry per trial in every column.
Serialized variable-length fields are strings (the code `json.dumps`es
them), positions are (x, y) pairs, flags are booleans. -/
structure TrialsDataFrame where
  background_indices : List (List ℕ)
  broke_fixation : List Bool
  stimulus_object_identities : List String
  stimulus_object_positions : List String
  stimulus_object_velocities : List String
  stimulus_object_target : List String
  delay_object_blanks : List Bool
  closed_loop_response_position : List (ℚ × ℚ)
  closed_loop_response_time : List ℚ
  start_time : List ℚ
  phase_fixation_time : List ℚ
  phase_stimulus_time : List ℚ
  phase_delay_time : List ℚ
  phase_cue_time : List ℚ
  phase_response_time : List ℚ
  phase_reveal_time : List ℚ
  phase_iti_time : List ℚ
  reward_time : List ℚ
  reward_duration : List ℚ
  response_position : List (ℚ × ℚ)
  response_time : List ℚ

/-- `TrialsInterface.set_aligned_starting_time`: add the offset to the
eleven time columns (`df.col += aligned_starting_time` elementwise). -/
def setAlignedStartingTime (df : TrialsDataFrame) (t : ℚ) : TrialsDataFrame :=
  { df with
    closed_loop_response_time := df.closed_loop_response_time.map (· + t),
    start_time := df.start_time.map (· + t),
    phase_fixation_time := df.phase_fixation_time.map (· + t),
    phase_stimulus_time := df.phase_stimulus_time.map (· + t),
    phase_delay_time := df.phase_delay_time.map (· + t),
    phase_cue_time := df.phase_cue_time.map (· + t),
    phase_response_time := df.phase_response_time.map (· + t),
    phase_reveal_time := df.phase_reveal_time.map (· + t),
    phase_iti_time := df.phase_iti_time.map (· + t),
    reward_time := df.reward_time.map (· + t),
    response_time := df.response_time.map (· + t) }

/-- C9: `set_aligned_starting_time` adds the offset to exactly the eleven
time-valued columns of the trials dataframe and leaves every other column
unchanged. -/
theorem C9_set_aligned_starting_time (df : TrialsDataFrame) (t : ℚ) :
    (setAlignedStartingTime df t).closed_loop_response_time =
        df.closed_loop_response_time.map (· + t) ∧
    (setAlignedStartingTime df t).start_time = df.start_time.map (· + t) ∧
    (setAlignedStartingTime df t).phase_fixation_time =
        df.phase_fixation_time.map (· + t) ∧
    (setAlignedStartingTime df t).phase_stimulus_time =
        df.phase_stimulus_time.map (· + t) ∧
    (setAlignedStartingTime df t).phase_delay_time =
        df.phase_delay_time.map (· + t) ∧
    (setAlignedStartingTime df t).phase_cue_time =
        df.phase_cue_time.map (· + t) ∧
    (setAlignedStartingTime df t).phase_response_time =
        df.phase_response_time.map (· + t) ∧
    (setAlignedStartingTime df t).phase_reveal_time =
        df.phase_reveal_time.map (· + t) ∧
    (setAlignedStartingTime df t).phase_iti_time =
        df.phase_iti_time.map (· + t) ∧
    (setAlignedStartingTime df t).reward_time = df.reward_time.map (· + t) ∧
    (setAlignedStartingTime df t).response_time =
        df.response_time.map (· + t) ∧
    (setAlignedStartingTime df t).background_indices =
        df.background_indices ∧
    (setAlignedStartingTime df t).broke_fixation = df.broke_fixation ∧
    (setAlignedStartingTime df t).stimulus_object_identities =
        df.stimulus_object_identities ∧
    (setAlignedStartingTime df t).stimulus_object_positions =
        df.stimulus_object_positions ∧
    (setAlignedStartingTime df t).stimulus_object_velocities =
        df.stimulus_object_velocities ∧
    (setAlignedStartingTime df t).stimulus_object_target =
        df.stimulus_object_target ∧
    (setAlignedStartingTime df t).delay_object_blanks =
        df.delay_object_blanks ∧
    (setAlignedStartingTime df t).closed_loop_response_position =
        df.closed_loop_response_position ∧
    (setAlignedStartingTime df t).reward_duration = df.reward_duration ∧
    (setAlignedStartingTime df t).response_position = df.response_position :=
  ⟨rfl, rfl, rfl, rfl, rfl, rfl, rfl, rfl, rfl, rfl, rfl, rfl, rfl, rfl,
    rfl, rfl, rfl, rfl, rfl, rfl, rfl⟩

end JazLab
